import Mathlib

/-!
Shallow embedding of the `react-audio-recorder-hook` library:
the `useAudioRecorder` session state machine (chunk buffers, timers,
artifact assembly), the browser-support utilities (MIME-type resolution,
iOS detection) and the audio-effect routing graphs, together with proofs
of the behavioural properties stated in the specification.

Bytes are modelled as `Nat`, a chunk as its byte sequence (`List Nat`),
and a `Blob` as its concatenated bytes plus content-type label.
-/

namespace AudioRecorderHook

/-- One ingested audio segment: its raw byte sequence.  `Blob.size` of the
browser corresponds to `List.length`. -/
abbrev Chunk := List Nat

/-- A browser `Blob`: the concatenated bytes and the content-type label. -/
structure Blob where
  bytes : List Nat
  type : String
deriving DecidableEq, Repr

/-- The browser environment the hook runs against: which capture primitives
exist, which MIME types `MediaRecorder.isTypeSupported` accepts, and whether
the user agent matches the iOS regex (with `MSStream` already excluded, as in
`browserSupport.isIOS`). -/
structure BrowserEnv where
  mediaRecorderSupported : Bool
  isTypeSupported : String → Bool
  iosUserAgent : Bool

/-- `browserSupport.isIOS`: the `/iPad|iPhone|iPod/` user-agent test with the
`MSStream` exclusion, folded into one boolean of the environment. -/
def isIOS (env : BrowserEnv) : Bool := env.iosUserAgent

/-- `browserSupport.isMimeTypeSupported`: `false` without `MediaRecorder`,
otherwise `MediaRecorder.isTypeSupported`. -/
def isMimeTypeSupported (env : BrowserEnv) (mimeType : String) : Bool :=
  env.mediaRecorderSupported && env.isTypeSupported mimeType

/-- The iOS-optimized MIME preference list of `getBestSupportedMimeType`. -/
def iOSMimeTypes : List String :=
  ["audio/mp4;codecs=mp4a", "audio/mp4", "audio/aac", "audio/x-m4a",
   "audio/mpeg", "audio/3gpp", "audio/wav", "audio/webm"]

/-- The standard MIME preference list of `getBestSupportedMimeType`. -/
def standardMimeTypes : List String :=
  ["audio/webm;codecs=opus", "audio/webm", "audio/ogg;codecs=opus",
   "audio/ogg", "audio/mp4", "audio/wav"]

/-- `browserSupport.getBestSupportedMimeType`: empty string without
`MediaRecorder`; on iOS the iOS list is scanned first and, when none of its
entries is supported, control falls through to the standard list; finally the
fixed fallback `"audio/webm"`. -/
def getBestSupportedMimeType (env : BrowserEnv) : String :=
  if !env.mediaRecorderSupported then ""
  else
    match (if isIOS env then iOSMimeTypes else []).find? env.isTypeSupported with
    | some m => m
    | none =>
      match standardMimeTypes.find? env.isTypeSupported with
      | some m => m
      | none => "audio/webm"

/-- The hook's `getSupportedMimeType`: a supported caller preference wins,
otherwise `getBestSupportedMimeType`. -/
def getSupportedMimeType (env : BrowserEnv) (preferredMimeType : Option String) : String :=
  match preferredMimeType with
  | some p => if isMimeTypeSupported env p then p else getBestSupportedMimeType env
  | none => getBestSupportedMimeType env

/-- JavaScript `String.prototype.includes`: substring test. -/
def strContains (s pat : String) : Bool :=
  (List.range (s.toList.length + 1)).any
    (fun i => ((s.toList.drop i).take pat.toList.length) == pat.toList)

/-- `MediaRecorder.state`. -/
inductive MRState where
  | inactive
  | recording
  | paused
deriving DecidableEq, Repr

/-- The per-session mutable state of `useAudioRecorder` that the verified
claims mention: the two chunk buffers (`audioChunksRef`, `pausedChunksRef`),
the captured MIME type (`mimeTypeRef`), recorder and React flags, the
duration counter, whether the duration interval (`timer`) and the pending
volume-sampler timeout (`volumeTimerRef`) are scheduled, the stream, the
outstanding artifact URL (`audioUrlRef`) and — as ghost bookkeeping — the
list of revoked URLs and a counter supplying fresh `URL.createObjectURL`
handles. -/
structure Session where
  audioChunks : List Chunk
  pausedChunks : List Chunk
  mimeType : String
  mr : MRState
  isRecording : Bool
  isPaused : Bool
  recordingDuration : Nat
  timer : Bool
  volumeTimer : Bool
  currentVolume : ℚ
  streamActive : Bool
  audioUrl : Option Nat
  revoked : List Nat
  nextUrl : Nat
deriving DecidableEq, Repr

/-- `cleanupAudioUrl`: revoke the outstanding object URL, if any. -/
def cleanupAudioUrl (s : Session) : Session :=
  match s.audioUrl with
  | some u => { s with audioUrl := none, revoked := s.revoked ++ [u] }
  | none => s

/-- `recorder.ondataavailable`: append the event's data to the active buffer
only when its size is positive. -/
def ondataavailable (c : Chunk) (s : Session) : Session :=
  if 0 < c.length then { s with audioChunks := s.audioChunks ++ [c] } else s

/-- `pauseRecording`: no-op when the recorder is inactive or already paused;
otherwise move the whole active buffer onto the end of the committed buffer,
clear the active buffer, pause the recorder and clear the duration timer. -/
def pauseRecording (s : Session) : Session :=
  if s.mr = MRState.inactive ∨ s.isPaused then s
  else
    { s with
      pausedChunks := s.pausedChunks ++ s.audioChunks
      audioChunks := []
      mr := MRState.paused
      isPaused := true
      timer := false }

/-- `resumeRecording`: no-op unless the recorder is paused; otherwise resume
emission, clear the paused flag and (re)start the duration timer. -/
def resumeRecording (s : Session) : Session :=
  if s.mr ≠ MRState.paused then s
  else { s with mr := MRState.recording, isPaused := false, timer := true }

/-- `stopRecording`: no-op when the recorder is inactive; otherwise stop the
recorder, clear the flags, cancel the duration interval and the pending
volume timeout, and reset volume and duration.  Chunk buffers are retained. -/
def stopRecording (s : Session) : Session :=
  if s.mr = MRState.inactive then s
  else
    { s with
      mr := MRState.inactive
      isRecording := false
      isPaused := false
      timer := false
      volumeTimer := false
      currentVolume := 0
      recordingDuration := 0 }

/-- `cancelRecording`: stop the recorder if active, release the stream,
clear flags and both scheduled tasks, revoke any outstanding artifact URL,
reset volume and duration and discard both chunk buffers. -/
def cancelRecording (s : Session) : Session :=
  let s1 := { s with mr := MRState.inactive, streamActive := false,
                     isRecording := false, isPaused := false,
                     timer := false, volumeTimer := false }
  let s2 := cleanupAudioUrl s1
  { s2 with currentVolume := 0, recordingDuration := 0,
            audioChunks := [], pausedChunks := [] }

/-- `recorder.onerror`: stop the stream tracks and clear the recording and
paused flags — nothing else; in particular neither scheduled task is
cancelled. -/
def onerror (s : Session) : Session :=
  { s with streamActive := false, isRecording := false, isPaused := false }

/-- One firing of the duration interval callback: increments the duration
while the interval is scheduled. -/
def durationTick (s : Session) : Session :=
  if s.timer then { s with recordingDuration := s.recordingDuration + 1 } else s

/-- The unmount cleanup of the hook's `useEffect`: it returns early whenever
the recorder's state is not `"inactive"`, and only otherwise clears the
interval, the volume timeout, the stream and the object URL. -/
def unmountCleanup (s : Session) : Session :=
  if s.mr ≠ MRState.inactive then s
  else
    cleanupAudioUrl { s with timer := false, volumeTimer := false, streamActive := false }

/-- The content-type label chosen inside `createAudioBlob`: on an iOS device
whose captured type contains neither `"mp4"` nor `"aac"`, substitute
`"audio/mp4"` when supported, else `"audio/aac"` when supported; otherwise
keep the captured type. -/
def iosBlobType (env : BrowserEnv) (mimeType : String) : String :=
  if isIOS env && !strContains mimeType "mp4" && !strContains mimeType "aac" then
    if isMimeTypeSupported env "audio/mp4" then "audio/mp4"
    else if isMimeTypeSupported env "audio/aac" then "audio/aac"
    else mimeType
  else mimeType

/-- `createAudioBlob`: `none` when both buffers are empty; otherwise pause a
still-recording recorder, concatenate committed then active chunks, resolve
the label (`iosBlobType`) and return the blob unless its size is zero. -/
def createAudioBlob (env : BrowserEnv) (s : Session) : Option Blob × Session :=
  if s.audioChunks = [] ∧ s.pausedChunks = [] then (none, s)
  else
    let s1 := if s.mr = MRState.recording then { s with mr := MRState.paused } else s
    let allChunks := s.pausedChunks ++ s.audioChunks
    let audioBlob : Blob := ⟨allChunks.flatten, iosBlobType env s.mimeType⟩
    if audioBlob.bytes.length = 0 then (none, s1) else (some audioBlob, s1)

/-- `playRecording`: revoke the previous handle, assemble, and on success
issue a fresh object URL, retain it in `audioUrlRef` and return it. -/
def playRecording (env : BrowserEnv) (s : Session) : Option Nat × Session :=
  match createAudioBlob env (cleanupAudioUrl s) with
  | (none, s1) => (none, s1)
  | (some _, s1) =>
    (some s1.nextUrl, { s1 with audioUrl := some s1.nextUrl, nextUrl := s1.nextUrl + 1 })

/-- `saveRecording`: assemble, and on success return the blob together with a
fresh object URL (which is not retained in `audioUrlRef`). -/
def saveRecording (env : BrowserEnv) (s : Session) : Option (Blob × Nat) × Session :=
  match createAudioBlob env s with
  | (none, s1) => (none, s1)
  | (some b, s1) => (some (b, s1.nextUrl), { s1 with nextUrl := s1.nextUrl + 1 })

/-- The events that can hit a live session after `startRecording` has set it
up: a data-available callback, the five session operations that touch the
buffers, a fatal recorder error, and a duration-interval tick. -/
inductive Event where
  | data (c : Chunk)
  | pause
  | resume
  | stop
  | cancel
  | error
  | tick
  | play
  | save
deriving DecidableEq, Repr

/-- Small-step semantics: how each event transforms the session state. -/
def step (env : BrowserEnv) (s : Session) : Event → Session
  | Event.data c => ondataavailable c s
  | Event.pause => pauseRecording s
  | Event.resume => resumeRecording s
  | Event.stop => stopRecording s
  | Event.cancel => cancelRecording s
  | Event.error => onerror s
  | Event.tick => durationTick s
  | Event.play => (playRecording env s).2
  | Event.save => (saveRecording env s).2

/-- Run a trace of events from a state. -/
def run (env : BrowserEnv) (s : Session) (tr : List Event) : Session :=
  tr.foldl (step env) s

/-- The state `startRecording` leaves behind on success: cleared buffers, a
recording recorder, both scheduled tasks running, and no outstanding URL
(it was revoked on entry). -/
def initSession (mime : String) : Session :=
  { audioChunks := []
    pausedChunks := []
    mimeType := mime
    mr := MRState.recording
    isRecording := true
    isPaused := false
    recordingDuration := 0
    timer := true
    volumeTimer := true
    currentVolume := 0
    streamActive := true
    audioUrl := none
    revoked := []
    nextUrl := 0 }

/-- Ghost bookkeeping: the chunks ingested (appended to a buffer) since the
session's buffers were last cleared, in ingestion order.  `cancel` discards
them; zero-size data events are never ingested. -/
def ingest (acc : List Chunk) : Event → List Chunk
  | Event.data c => if 0 < c.length then acc ++ [c] else acc
  | Event.cancel => []
  | _ => acc

/-- The chunks a trace ingests, starting from cleared buffers. -/
def ingestedTrace (tr : List Event) : List Chunk :=
  tr.foldl ingest []

/-- `cleanupAudioUrl` touches only the URL bookkeeping. -/
theorem cleanupAudioUrl_buffers (s : Session) :
    (cleanupAudioUrl s).pausedChunks = s.pausedChunks
    ∧ (cleanupAudioUrl s).audioChunks = s.audioChunks
    ∧ (cleanupAudioUrl s).mr = s.mr
    ∧ (cleanupAudioUrl s).mimeType = s.mimeType := by
  rcases h : s.audioUrl with _ | u <;> simp [cleanupAudioUrl, h]

/-- `createAudioBlob` leaves both chunk buffers unchanged (it may only pause
the recorder). -/
theorem createAudioBlob_snd_buffers (env : BrowserEnv) (s : Session) :
    (createAudioBlob env s).2.pausedChunks = s.pausedChunks
    ∧ (createAudioBlob env s).2.audioChunks = s.audioChunks := by
  unfold createAudioBlob
  split
  · exact ⟨rfl, rfl⟩
  · dsimp only
    split
    · split <;> exact ⟨rfl, rfl⟩
    · split <;> exact ⟨rfl, rfl⟩

/-- `playRecording` leaves both chunk buffers unchanged. -/
theorem playRecording_snd_buffers (env : BrowserEnv) (s : Session) :
    (playRecording env s).2.pausedChunks = s.pausedChunks
    ∧ (playRecording env s).2.audioChunks = s.audioChunks := by
  unfold playRecording
  rcases hc : createAudioBlob env (cleanupAudioUrl s) with ⟨ob, s1⟩
  have hb := createAudioBlob_snd_buffers env (cleanupAudioUrl s)
  rw [hc] at hb
  have hcl := cleanupAudioUrl_buffers s
  cases ob <;> simp_all

/-- `saveRecording` leaves both chunk buffers unchanged. -/
theorem saveRecording_snd_buffers (env : BrowserEnv) (s : Session) :
    (saveRecording env s).2.pausedChunks = s.pausedChunks
    ∧ (saveRecording env s).2.audioChunks = s.audioChunks := by
  unfold saveRecording
  rcases hc : createAudioBlob env s with ⟨ob, s1⟩
  have hb := createAudioBlob_snd_buffers env s
  rw [hc] at hb
  cases ob <;> simp_all

/-- One step transforms the combined buffer exactly as the ghost `ingest`
function describes. -/
theorem step_buffers (env : BrowserEnv) (s : Session) (e : Event) :
    (step env s e).pausedChunks ++ (step env s e).audioChunks
      = ingest (s.pausedChunks ++ s.audioChunks) e := by
  cases e with
  | data c =>
    by_cases hc : 0 < c.length <;>
      simp [step, ondataavailable, ingest, hc, List.append_assoc]
  | pause =>
    by_cases hg : s.mr = MRState.inactive ∨ s.isPaused = true <;>
      simp [step, pauseRecording, ingest, hg]
  | resume =>
    by_cases hg : s.mr ≠ MRState.paused <;> simp [step, resumeRecording, ingest, hg]
  | stop =>
    by_cases hg : s.mr = MRState.inactive <;> simp [step, stopRecording, ingest, hg]
  | cancel => simp [step, cancelRecording, ingest, cleanupAudioUrl_buffers]
  | error => simp [step, onerror, ingest]
  | tick =>
    by_cases hg : s.timer = true <;> simp [step, durationTick, ingest, hg]
  | play =>
    have h := playRecording_snd_buffers env s
    simp [step, ingest, h.1, h.2]
  | save =>
    have h := saveRecording_snd_buffers env s
    simp [step, ingest, h.1, h.2]

/-- Running a trace folds `ingest` over the combined buffer. -/
theorem run_buffers (env : BrowserEnv) (tr : List Event) :
    ∀ s : Session,
      (run env s tr).pausedChunks ++ (run env s tr).audioChunks
        = tr.foldl ingest (s.pausedChunks ++ s.audioChunks) := by
  induction tr with
  | nil => intro s; rfl
  | cons e t ih =>
    intro s
    have : run env s (e :: t) = run env (step env s e) t := rfl
    rw [this, List.foldl_cons, ← step_buffers env s e]
    exact ih (step env s e)

/-- `ingest` preserves positivity of every buffered chunk. -/
theorem ingest_allPos (acc : List Chunk) (e : Event)
    (h : ∀ c ∈ acc, 0 < c.length) : ∀ c ∈ ingest acc e, 0 < c.length := by
  cases e with
  | data c =>
    by_cases hc : 0 < c.length
    · intro x hx
      simp only [ingest, if_pos hc, List.mem_append, List.mem_singleton] at hx
      rcases hx with hx | rfl
      · exact h x hx
      · exact hc
    · simpa [ingest, hc] using h
  | pause => simpa [ingest] using h
  | resume => simpa [ingest] using h
  | stop => simpa [ingest] using h
  | cancel => simp [ingest]
  | error => simpa [ingest] using h
  | tick => simpa [ingest] using h
  | play => simpa [ingest] using h
  | save => simpa [ingest] using h

/-- Every chunk a trace leaves in the buffers has positive size. -/
theorem run_allPos (env : BrowserEnv) (tr : List Event) :
    ∀ s : Session, (∀ c ∈ s.pausedChunks ++ s.audioChunks, 0 < c.length) →
      ∀ c ∈ (run env s tr).pausedChunks ++ (run env s tr).audioChunks, 0 < c.length := by
  induction tr with
  | nil => intro s h; exact h
  | cons e t ih =>
    intro s h
    have hstep : ∀ c ∈ (step env s e).pausedChunks ++ (step env s e).audioChunks,
        0 < c.length := by
      rw [step_buffers]
      exact ingest_allPos _ e h
    exact ih (step env s e) hstep

/-- Concatenating a non-empty list of non-empty chunks gives a positive
byte count. -/
theorem flatten_length_pos {l : List Chunk} (hne : l ≠ [])
    (hpos : ∀ c ∈ l, 0 < c.length) : 0 < l.flatten.length := by
  cases l with
  | nil => exact absurd rfl hne
  | cons c t =>
    have hc : 0 < c.length := hpos c (List.mem_cons_self c t)
    simp only [List.flatten_cons, List.length_append]
    omega

/-- Complete characterization of the blob `createAudioBlob` returns: absent
exactly when the concatenation is empty, otherwise the concatenated bytes
with the label resolved by `iosBlobType`. -/
theorem createAudioBlob_fst (env : BrowserEnv) (s : Session) :
    (createAudioBlob env s).1
      = if (s.pausedChunks ++ s.audioChunks).flatten.length = 0 then none
        else some ⟨(s.pausedChunks ++ s.audioChunks).flatten, iosBlobType env s.mimeType⟩ := by
  unfold createAudioBlob
  by_cases hg : s.audioChunks = [] ∧ s.pausedChunks = []
  · rw [if_pos hg, hg.1, hg.2]
    rfl
  · rw [if_neg hg]
    dsimp only
    by_cases hc : (s.pausedChunks ++ s.audioChunks).flatten.length = 0
    · rw [if_pos hc, if_pos hc]
    · rw [if_neg hc, if_neg hc]

/-- With positive-size chunks, `createAudioBlob` is absent exactly when both
buffers are empty. -/
theorem createAudioBlob_fst_none_iff (env : BrowserEnv) (s : Session)
    (hpos : ∀ c ∈ s.pausedChunks ++ s.audioChunks, 0 < c.length) :
    ((createAudioBlob env s).1 = none ↔ s.pausedChunks ++ s.audioChunks = []) := by
  rw [createAudioBlob_fst]
  by_cases hb : s.pausedChunks ++ s.audioChunks = []
  · rw [if_pos (by rw [hb]; rfl)]
    simp [hb]
  · have hpos' := flatten_length_pos hb hpos
    rw [if_neg (Nat.pos_iff_ne_zero.mp hpos')]
    simp [hb]

/-- The blob `saveRecording` returns is exactly the assembler's blob. -/
theorem saveRecording_fst (env : BrowserEnv) (s : Session) :
    (saveRecording env s).1
      = (createAudioBlob env s).1.map (fun b => (b, (createAudioBlob env s).2.nextUrl)) := by
  unfold saveRecording
  rcases hc : createAudioBlob env s with ⟨ob, s1⟩
  cases ob <;> rfl

/-- The handle `playRecording` returns is present exactly when the assembler
(run after revoking the previous handle) produces a blob. -/
theorem playRecording_fst (env : BrowserEnv) (s : Session) :
    (playRecording env s).1
      = (createAudioBlob env (cleanupAudioUrl s)).1.map
          (fun _ => (createAudioBlob env (cleanupAudioUrl s)).2.nextUrl) := by
  unfold playRecording
  rcases hc : createAudioBlob env (cleanupAudioUrl s) with ⟨ob, s1⟩
  cases ob <;> rfl

/-- When `pauseRecording` applies, it moves the whole active buffer onto the
end of the committed buffer and empties the active buffer. -/
theorem pauseRecording_moves (s : Session) (h1 : s.mr ≠ MRState.inactive)
    (h2 : s.isPaused = false) :
    (pauseRecording s).pausedChunks = s.pausedChunks ++ s.audioChunks
    ∧ (pauseRecording s).audioChunks = [] := by
  unfold pauseRecording
  rw [if_neg (by
    rintro (h | h)
    · exact h1 h
    · rw [h2] at h
      exact absurd h (by decide))]
  exact ⟨rfl, rfl⟩

/-- A fixed non-iOS environment supporting only `"audio/webm"`, used to
instantiate the general theorems. -/
def envStd : BrowserEnv :=
  { mediaRecorderSupported := true
    isTypeSupported := fun m => m == "audio/webm"
    iosUserAgent := false }

/-- A concrete trace: ingest two bytes, pause, resume, ingest one byte. -/
def trC1 : List Event :=
  [Event.data [1, 2], Event.pause, Event.resume, Event.data [3]]

/-- C1: for every session and every interleaving of pause/resume cycles, the
artifact produced by `saveRecording` (and by the shared assembler
`createAudioBlob` that `playRecording` hands to `URL.createObjectURL`) is
exactly the concatenation of the committed chunks in pause order followed by
the active chunks in arrival order — equivalently, all chunks ingested in
the session's current lifetime in ingestion order — so its byte length is
the sum of the ingested chunk lengths; and `pauseRecording` moves the whole
active sequence onto the end of the committed sequence and empties the
active sequence. -/
theorem artifact_is_ordered_concat (env : BrowserEnv) (mime : String) (tr : List Event) :
    ((run env (initSession mime) tr).pausedChunks
        ++ (run env (initSession mime) tr).audioChunks = ingestedTrace tr)
    ∧ (∀ b u, (saveRecording env (run env (initSession mime) tr)).1 = some (b, u) →
        b.bytes = (ingestedTrace tr).flatten
        ∧ b.bytes.length = ((ingestedTrace tr).map List.length).sum)
    ∧ (∀ b, (createAudioBlob env (run env (initSession mime) tr)).1 = some b →
        b.bytes = (ingestedTrace tr).flatten)
    ∧ ((run env (initSession mime) tr).mr ≠ MRState.inactive →
        (run env (initSession mime) tr).isPaused = false →
        (pauseRecording (run env (initSession mime) tr)).pausedChunks
            = (run env (initSession mime) tr).pausedChunks
              ++ (run env (initSession mime) tr).audioChunks
        ∧ (pauseRecording (run env (initSession mime) tr)).audioChunks = []) := by
  have hbuf : (run env (initSession mime) tr).pausedChunks
      ++ (run env (initSession mime) tr).audioChunks = ingestedTrace tr := by
    rw [run_buffers env tr (initSession mime)]
    rfl
  refine ⟨hbuf, ?_, ?_, fun h1 h2 => pauseRecording_moves _ h1 h2⟩
  · intro b u hsave
    rw [saveRecording_fst] at hsave
    simp at hsave
    obtain ⟨a, ha, hab, -⟩ := hsave
    subst hab
    rw [createAudioBlob_fst] at ha
    by_cases hz : ((run env (initSession mime) tr).pausedChunks
        ++ (run env (initSession mime) tr).audioChunks).flatten.length = 0
    · rw [if_pos hz] at ha; exact absurd ha (by simp)
    · rw [if_neg hz] at ha
      have ha' : a = Blob.mk ((ingestedTrace tr).flatten)
          (iosBlobType env (run env (initSession mime) tr).mimeType) := by
        rw [← hbuf]
        exact (Option.some_inj.mp ha).symm
      constructor
      · rw [ha']
      · rw [ha']
        exact List.length_flatten _
  · intro b hb
    rw [createAudioBlob_fst] at hb
    by_cases hz : ((run env (initSession mime) tr).pausedChunks
        ++ (run env (initSession mime) tr).audioChunks).flatten.length = 0
    · rw [if_pos hz] at hb; exact absurd hb (by simp)
    · rw [if_neg hz] at hb
      have hxb := Option.some_inj.mp hb
      rw [← hxb, hbuf]

/-- Witness for C1 at a concrete trace: two chunks ingested across a pause
boundary assemble, via `saveRecording`, to their ordered concatenation, and
`pauseRecording` at the reached state moves the active buffer. -/
theorem artifact_is_ordered_concat_witness :
    ((Blob.mk [1, 2, 3] "audio/webm").bytes = (ingestedTrace trC1).flatten
      ∧ (Blob.mk [1, 2, 3] "audio/webm").bytes.length
          = ((ingestedTrace trC1).map List.length).sum)
    ∧ ((pauseRecording (run envStd (initSession "audio/webm") trC1)).pausedChunks
        = (run envStd (initSession "audio/webm") trC1).pausedChunks
          ++ (run envStd (initSession "audio/webm") trC1).audioChunks
      ∧ (pauseRecording (run envStd (initSession "audio/webm") trC1)).audioChunks = []) :=
  ⟨(artifact_is_ordered_concat envStd "audio/webm" trC1).2.1
      (Blob.mk [1, 2, 3] "audio/webm") 0 (by decide),
   (artifact_is_ordered_concat envStd "audio/webm" trC1).2.2.2
      (by decide) (by decide)⟩

/-- C2: after `cancelRecording`, from every prior state, the duration is 0,
both chunk buffers are empty, the recording and paused flags are cleared,
and any outstanding artifact URL has been revoked (the retained handle is
gone and the previously outstanding handle is in the revoked set). -/
theorem cancelRecording_resets (s : Session) :
    (cancelRecording s).recordingDuration = 0
    ∧ (cancelRecording s).audioChunks = []
    ∧ (cancelRecording s).pausedChunks = []
    ∧ (cancelRecording s).isRecording = false
    ∧ (cancelRecording s).isPaused = false
    ∧ (cancelRecording s).audioUrl = none
    ∧ (∀ u, s.audioUrl = some u → u ∈ (cancelRecording s).revoked) := by
  rcases h : s.audioUrl with _ | u <;>
    simp [cancelRecording, cleanupAudioUrl, h]

/-- Witness for C2: cancelling a session holding outstanding handle 5 lands
that handle in the revoked set. -/
theorem cancelRecording_resets_witness :
    5 ∈ (cancelRecording { initSession "audio/webm" with audioUrl := some 5 }).revoked :=
  (cancelRecording_resets { initSession "audio/webm" with audioUrl := some 5 }).2.2.2.2.2.2
    5 rfl

/-- C3: `saveRecording` and `playRecording` return an absent result if and
only if no chunk has been ingested in the session's current lifetime (since
`startRecording` cleared the buffers or `cancelRecording` discarded them). -/
theorem save_play_absent_iff_no_ingestion (env : BrowserEnv) (mime : String)
    (tr : List Event) :
    ((saveRecording env (run env (initSession mime) tr)).1 = none
      ↔ ingestedTrace tr = [])
    ∧ ((playRecording env (run env (initSession mime) tr)).1 = none
      ↔ ingestedTrace tr = []) := by
  have hbuf : (run env (initSession mime) tr).pausedChunks
      ++ (run env (initSession mime) tr).audioChunks = ingestedTrace tr := by
    rw [run_buffers env tr (initSession mime)]
    rfl
  have hpos : ∀ c ∈ (run env (initSession mime) tr).pausedChunks
      ++ (run env (initSession mime) tr).audioChunks, 0 < c.length :=
    run_allPos env tr (initSession mime) (by intro c hc; simp [initSession] at hc)
  constructor
  · rw [saveRecording_fst]
    rw [Option.map_eq_none', createAudioBlob_fst_none_iff env _ hpos, hbuf]
  · have hclean := cleanupAudioUrl_buffers (run env (initSession mime) tr)
    have hpos' : ∀ c ∈ (cleanupAudioUrl (run env (initSession mime) tr)).pausedChunks
        ++ (cleanupAudioUrl (run env (initSession mime) tr)).audioChunks, 0 < c.length := by
      rw [hclean.1, hclean.2.1]
      exact hpos
    rw [playRecording_fst]
    rw [Option.map_eq_none', createAudioBlob_fst_none_iff env _ hpos',
        hclean.1, hclean.2.1, hbuf]

/-- Witness for C3: on the empty trace (no ingestion) both retrieval
operations return the absent result. -/
theorem save_play_absent_iff_no_ingestion_witness :
    (saveRecording envStd (run envStd (initSession "audio/webm") [])).1 = none
    ∧ (playRecording envStd (run envStd (initSession "audio/webm") [])).1 = none :=
  ⟨(save_play_absent_iff_no_ingestion envStd "audio/webm" []).1.mpr rfl,
   (save_play_absent_iff_no_ingestion envStd "audio/webm" []).2.mpr rfl⟩

/-- C10: at every reachable state, every buffered chunk has size strictly
greater than 0 (zero-size data events are discarded on ingestion), and
whenever the combined buffer is non-empty the assembled artifact exists and
has positive byte length — the assembler's zero-size bail-out branch is
unreachable. -/
theorem buffered_chunks_positive (env : BrowserEnv) (mime : String) (tr : List Event) :
    (∀ c ∈ (run env (initSession mime) tr).pausedChunks
        ++ (run env (initSession mime) tr).audioChunks, 0 < c.length)
    ∧ ((run env (initSession mime) tr).pausedChunks
          ++ (run env (initSession mime) tr).audioChunks ≠ [] →
        ∃ b, (createAudioBlob env (run env (initSession mime) tr)).1 = some b
          ∧ 0 < b.bytes.length) := by
  have hpos : ∀ c ∈ (run env (initSession mime) tr).pausedChunks
      ++ (run env (initSession mime) tr).audioChunks, 0 < c.length :=
    run_allPos env tr (initSession mime) (by intro c hc; simp [initSession] at hc)
  refine ⟨hpos, fun hne => ?_⟩
  have hlen := flatten_length_pos hne hpos
  refine ⟨⟨((run env (initSession mime) tr).pausedChunks
      ++ (run env (initSession mime) tr).audioChunks).flatten,
      iosBlobType env (run env (initSession mime) tr).mimeType⟩, ?_, hlen⟩
  rw [createAudioBlob_fst, if_neg (Nat.pos_iff_ne_zero.mp hlen)]

/-- Witness for C10: after ingesting the single byte chunk `[7]`, the
buffered chunk is positive and the assembler yields a positive-size blob. -/
theorem buffered_chunks_positive_witness :
    (0 < ([7] : Chunk).length)
    ∧ (∃ b, (createAudioBlob envStd
          (run envStd (initSession "audio/webm") [Event.data [7]])).1 = some b
        ∧ 0 < b.bytes.length) :=
  ⟨(buffered_chunks_positive envStd "audio/webm" [Event.data [7]]).1 [7] (by decide),
   (buffered_chunks_positive envStd "audio/webm" [Event.data [7]]).2 (by decide)⟩

/-- `find?` over an append scans the first list first. -/
theorem find?_append_first {α : Type} (p : α → Bool) (l₁ l₂ : List α) :
    (l₁ ++ l₂).find? p
      = match l₁.find? p with
        | some x => some x
        | none => l₂.find? p := by
  induction l₁ with
  | nil => rfl
  | cons a t ih =>
    by_cases hp : p a = true
    · simp [List.find?_cons, hp]
    · simp only [List.cons_append, List.find?_cons, hp]
      exact ih

/-- The content-type resolution policy exactly as the claim words it: the
device-class classification (iOS) selects the narrowband-first list
*instead of* the general list; the single selected list is tried entry by
entry and `"audio/webm"` is the default when no listed entry is supported;
a supported caller preference takes priority. -/
def claimedMimePolicy (env : BrowserEnv) (preferred : Option String) : String :=
  let chosen :=
    match (if isIOS env then iOSMimeTypes else standardMimeTypes).find?
        env.isTypeSupported with
    | some m => m
    | none => "audio/webm"
  match preferred with
  | some p => if isMimeTypeSupported env p then p else chosen
  | none => chosen

/-- The amended policy: on iOS the narrowband-first list is tried first and
then the general list as well; `"audio/webm"` only when no entry of the
consulted lists is supported. -/
def amendedMimePolicy (env : BrowserEnv) (preferred : Option String) : String :=
  let chosen :=
    match ((if isIOS env then iOSMimeTypes else []) ++ standardMimeTypes).find?
        env.isTypeSupported with
    | some m => m
    | none => "audio/webm"
  match preferred with
  | some p => if isMimeTypeSupported env p then p else chosen
  | none => chosen

/-- iOS device on which only `"audio/ogg"` — an entry of the general list
absent from the iOS list — is supported. -/
def envIOSOgg : BrowserEnv :=
  { mediaRecorderSupported := true
    isTypeSupported := fun m => m == "audio/ogg"
    iosUserAgent := true }

/-- C4 counterexample: on an iOS device where only `"audio/ogg"` is
supported, the code resolves `"audio/ogg"` by falling through to the
general list, while the claimed policy (iOS list *instead of* the general
list, then default) would resolve `"audio/webm"`. -/
theorem mime_policy_counterexample :
    getSupportedMimeType envIOSOgg none = "audio/ogg"
    ∧ claimedMimePolicy envIOSOgg none = "audio/webm"
    ∧ getSupportedMimeType envIOSOgg none ≠ claimedMimePolicy envIOSOgg none := by
  refine ⟨by decide, by decide, by decide⟩

/-- C4 (amended): with `MediaRecorder` available, content-type resolution
chooses a supported caller preference first; otherwise on iOS the
narrowband-first list is tried and then the general list, off iOS only the
general list, the first supported entry winning; if no consulted entry is
supported the fixed default `"audio/webm"` is chosen. -/
theorem getSupportedMimeType_amended (env : BrowserEnv) (preferred : Option String)
    (hmr : env.mediaRecorderSupported = true) :
    getSupportedMimeType env preferred = amendedMimePolicy env preferred := by
  have hbest : getBestSupportedMimeType env
      = match ((if isIOS env then iOSMimeTypes else []) ++ standardMimeTypes).find?
          env.isTypeSupported with
        | some m => m
        | none => "audio/webm" := by
    unfold getBestSupportedMimeType
    rw [hmr, find?_append_first]
    rcases h : (if isIOS env then iOSMimeTypes else []).find? env.isTypeSupported
      with _ | m <;> simp [h]
  cases preferred with
  | none => simpa [getSupportedMimeType, amendedMimePolicy] using hbest
  | some p =>
    by_cases hp : isMimeTypeSupported env p = true <;>
      simp [getSupportedMimeType, amendedMimePolicy, hp, hbest]

/-- Witness for C4's amended theorem at a concrete environment and
preference. -/
theorem getSupportedMimeType_amended_witness :
    getSupportedMimeType envIOSOgg (some "audio/flac")
      = amendedMimePolicy envIOSOgg (some "audio/flac") :=
  getSupportedMimeType_amended envIOSOgg (some "audio/flac") rfl

/-- C5: at assembly time, on an iOS-classified device whose captured MIME
type contains neither `"mp4"` nor `"aac"`, the artifact's content-type label
is substituted with `"audio/mp4"` when supported, else `"audio/aac"` when
supported (else kept), while the assembled bytes are exactly the same chunk
concatenation as on a non-iOS device — label substitution only. -/
theorem ios_label_substitution (env : BrowserEnv) (s : Session)
    (hio : isIOS env = true)
    (h1 : strContains s.mimeType "mp4" = false)
    (h2 : strContains s.mimeType "aac" = false)
    (hbytes : (s.pausedChunks ++ s.audioChunks).flatten ≠ []) :
    (createAudioBlob env s).1
      = some ⟨(s.pausedChunks ++ s.audioChunks).flatten,
          if isMimeTypeSupported env "audio/mp4" then "audio/mp4"
          else if isMimeTypeSupported env "audio/aac" then "audio/aac"
          else s.mimeType⟩
    ∧ (createAudioBlob { env with iosUserAgent := false } s).1
      = some ⟨(s.pausedChunks ++ s.audioChunks).flatten, s.mimeType⟩ := by
  have hlen : ¬ ((s.pausedChunks ++ s.audioChunks).flatten.length = 0) := by
    intro h
    exact hbytes (List.length_eq_zero.mp h)
  constructor
  · rw [createAudioBlob_fst, if_neg hlen]
    simp [iosBlobType, hio, h1, h2]
  · rw [createAudioBlob_fst, if_neg hlen]
    simp [iosBlobType, isIOS]

/-- iOS device supporting only `"audio/mp4"`. -/
def envIOSMp4 : BrowserEnv :=
  { mediaRecorderSupported := true
    isTypeSupported := fun m => m == "audio/mp4"
    iosUserAgent := true }

/-- A session holding one buffered chunk of a `"audio/webm"` capture. -/
def sC5 : Session :=
  { initSession "audio/webm" with audioChunks := [[9]] }

/-- Witness for C5: a `"audio/webm"` capture on an iOS device supporting
`"audio/mp4"` gets the substituted label on unchanged bytes. -/
theorem ios_label_substitution_witness :
    (createAudioBlob envIOSMp4 sC5).1
      = some ⟨(sC5.pausedChunks ++ sC5.audioChunks).flatten,
          if isMimeTypeSupported envIOSMp4 "audio/mp4" then "audio/mp4"
          else if isMimeTypeSupported envIOSMp4 "audio/aac" then "audio/aac"
          else sC5.mimeType⟩
    ∧ (createAudioBlob { envIOSMp4 with iosUserAgent := false } sC5).1
      = some ⟨(sC5.pausedChunks ++ sC5.audioChunks).flatten, sC5.mimeType⟩ :=
  ios_label_substitution envIOSMp4 sC5 (by decide) (by decide) (by decide) (by decide)

/-- Outcome of the `getUserMedia` acquisition: granted, or rejected with the
error's `name`. -/
inductive GumOutcome where
  | granted
  | failed (name : String)
deriving DecidableEq, Repr

/-- The environment one `startRecording` call sees: the memoized aggregate
support flag and the acquisition outcome. -/
structure StartEnv where
  isSupported : Bool
  gum : GumOutcome
deriving DecidableEq, Repr

/-- The hook's observable flags that `startRecording` touches. -/
structure HookFlags where
  isRecording : Bool
  isPaused : Bool
  error : Option String
  isPermissionDenied : Bool
deriving DecidableEq, Repr

/-- `startRecording`, restricted to its observable flag effects.  The result
is `.ok` exactly when no exception escapes to the caller.  It first clears
the error slot; an unsupported browser records an error and aborts; on
refusal with `NotAllowedError`/`PermissionDeniedError` the `.catch` sets the
permission-denied flag and rethrows, and the surrounding `catch` then clears
the recording flags and only logs — it never calls `setError`. -/
def startRecordingFlags (env : StartEnv) (prev : HookFlags) : Except String HookFlags :=
  let f0 : HookFlags := { prev with error := none }
  if !env.isSupported then
    Except.ok { f0 with error := some "Audio recording is not supported in this browser" }
  else
    match env.gum with
    | GumOutcome.granted =>
      Except.ok { f0 with isPermissionDenied := false, isRecording := true, isPaused := false }
    | GumOutcome.failed name =>
      let f1 :=
        if name = "NotAllowedError" ∨ name = "PermissionDeniedError" then
          { f0 with isPermissionDenied := true }
        else f0
      Except.ok { f1 with isRecording := false, isPaused := false }

/-- C6 counterexample: a denied start attempt with a previously recorded
error leaves the last-error slot `none` — the failure is *not* recorded in
the `error` field, contradicting the claim (everything else the claim says
does hold: no exception, `isPermissionDenied`, Idle flags). -/
theorem permission_denied_error_not_recorded :
    startRecordingFlags ⟨true, GumOutcome.failed "NotAllowedError"⟩
        ⟨false, false, some "previous failure", false⟩
      = Except.ok ⟨false, false, none, true⟩ := rfl

/-- C6 (amended): when device access is refused with `NotAllowedError` or
`PermissionDeniedError`, `startRecording` raises no exception to its caller,
sets `isPermissionDenied`, and leaves the session Idle; the last-error slot
is cleared at the start of the attempt and left `none` — the failure is not
recorded there. -/
theorem startRecording_denied (env : StartEnv) (prev : HookFlags)
    (hs : env.isSupported = true)
    (hg : env.gum = GumOutcome.failed "NotAllowedError"
        ∨ env.gum = GumOutcome.failed "PermissionDeniedError") :
    startRecordingFlags env prev
      = Except.ok { isRecording := false, isPaused := false,
                    error := none, isPermissionDenied := true } := by
  rcases hg with hg | hg <;> simp [startRecordingFlags, hs, hg]

/-- Witness for C6's amended theorem at a concrete denial. -/
theorem startRecording_denied_witness :
    startRecordingFlags ⟨true, GumOutcome.failed "PermissionDeniedError"⟩
        ⟨true, true, some "boom", false⟩
      = Except.ok { isRecording := false, isPaused := false,
                    error := none, isPermissionDenied := true } :=
  startRecording_denied ⟨true, GumOutcome.failed "PermissionDeniedError"⟩
    ⟨true, true, some "boom", false⟩ rfl (Or.inr rfl)

/-- `Record<string, number>` of effect parameters: a partial map from
parameter name to value.  Parameter values are modelled as rationals. -/
def Params : Type := String → Option ℚ

/-- The `AudioEffectType` enum. -/
inductive AudioEffectType where
  | none
  | reverb
  | echo
  | distortion
  | lowpass
  | highpass
  | telephone
deriving DecidableEq, Repr

/-- `AudioEffectOptions`: effect type, optional wet/dry mix, optional
parameter record. -/
structure AudioEffectOptions where
  type : AudioEffectType
  mix : Option ℚ := Option.none
  params : Option Params := Option.none

/-- The two waveshaper curves built by the source: the distortion curve,
determined by its `amount` parameter, and the telephone effect's fixed
soft-clip curve. -/
inductive CurveKind where
  | distortionAmt (amount : ℚ)
  | telephoneClip
deriving DecidableEq, Repr

/-- A routing-graph node, tagged with the values the source configures on
it.  `q = Option.none` on a biquad means the source leaves `Q` untouched. -/
inductive ANode where
  | gainN (value : ℚ)
  | delayN (time : ℚ)
  | biquadN (kind : String) (freq : ℚ) (q : Option ℚ)
  | waveshaperN (curve : CurveKind) (oversample4x : Bool)
  | convolverN (decay : ℚ)
deriving DecidableEq, Repr

/-- An endpoint of a `connect` edge: the capture source, the destination
sink, or the `i`-th node created by the effect constructor. -/
inductive NPort where
  | src
  | dst
  | node (i : Nat)
deriving DecidableEq, Repr

/-- A constructed routing graph: the created nodes in creation order and the
`connect` edges. -/
structure Graph where
  nodes : List ANode
  edges : List (NPort × NPort)
deriving DecidableEq, Repr

/-- `createReverbEffect`: a convolver over a synthetic impulse of decay
`params.decay ?? 2`, dry gain `1 - mix` and wet gain `mix`; dry path
source→dry→destination, wet path source→convolver→wet→destination. -/
def createReverbEffect (mix : ℚ) (p : Params) : Graph :=
  { nodes := [ANode.convolverN ((p "decay").getD 2),
              ANode.gainN (1 - mix), ANode.gainN mix]
    edges := [(NPort.src, NPort.node 1), (NPort.node 1, NPort.dst),
              (NPort.src, NPort.node 0), (NPort.node 0, NPort.node 2),
              (NPort.node 2, NPort.dst)] }

/-- `createEchoEffect`: delay `params.delayTime ?? 0.3`, feedback gain
`params.feedback ?? 0.4`, dry/wet gains, the dry and wet paths, and the
feedback loop delay→feedback→delay. -/
def createEchoEffect (mix : ℚ) (p : Params) : Graph :=
  { nodes := [ANode.delayN ((p "delayTime").getD (3/10)),
              ANode.gainN ((p "feedback").getD (2/5)),
              ANode.gainN (1 - mix), ANode.gainN mix]
    edges := [(NPort.src, NPort.node 2), (NPort.node 2, NPort.dst),
              (NPort.src, NPort.node 0), (NPort.node 0, NPort.node 3),
              (NPort.node 3, NPort.dst),
              (NPort.node 0, NPort.node 1), (NPort.node 1, NPort.node 0)] }

/-- `createDistortionEffect`: a 4x-oversampled waveshaper whose curve is
determined by `params.amount ?? 20`, plus dry/wet split. -/
def createDistortionEffect (mix : ℚ) (p : Params) : Graph :=
  { nodes := [ANode.waveshaperN (CurveKind.distortionAmt ((p "amount").getD 20)) true,
              ANode.gainN (1 - mix), ANode.gainN mix]
    edges := [(NPort.src, NPort.node 1), (NPort.node 1, NPort.dst),
              (NPort.src, NPort.node 0), (NPort.node 0, NPort.node 2),
              (NPort.node 2, NPort.dst)] }

/-- `createLowPassFilter`: a lowpass biquad, cutoff `params.frequency ?? 800`
and `Q = params.Q ?? 1`, plus dry/wet split. -/
def createLowPassFilter (mix : ℚ) (p : Params) : Graph :=
  { nodes := [ANode.biquadN "lowpass" ((p "frequency").getD 800) (some ((p "Q").getD 1)),
              ANode.gainN (1 - mix), ANode.gainN mix]
    edges := [(NPort.src, NPort.node 1), (NPort.node 1, NPort.dst),
              (NPort.src, NPort.node 0), (NPort.node 0, NPort.node 2),
              (NPort.node 2, NPort.dst)] }

/-- `createHighPassFilter`: a highpass biquad, cutoff
`params.frequency ?? 1500` and `Q = params.Q ?? 1`, plus dry/wet split. -/
def createHighPassFilter (mix : ℚ) (p : Params) : Graph :=
  { nodes := [ANode.biquadN "highpass" ((p "frequency").getD 1500) (some ((p "Q").getD 1)),
              ANode.gainN (1 - mix), ANode.gainN mix]
    edges := [(NPort.src, NPort.node 1), (NPort.node 1, NPort.dst),
              (NPort.src, NPort.node 0), (NPort.node 0, NPort.node 2),
              (NPort.node 2, NPort.dst)] }

/-- `createTelephoneEffect`: highpass `params.highpassFreq ?? 700` →
lowpass `params.lowpassFreq ?? 2500` → fixed soft-clip waveshaper, plus
dry/wet split. -/
def createTelephoneEffect (mix : ℚ) (p : Params) : Graph :=
  { nodes := [ANode.biquadN "highpass" ((p "highpassFreq").getD 700) Option.none,
              ANode.biquadN "lowpass" ((p "lowpassFreq").getD 2500) Option.none,
              ANode.waveshaperN CurveKind.telephoneClip false,
              ANode.gainN (1 - mix), ANode.gainN mix]
    edges := [(NPort.src, NPort.node 3), (NPort.node 3, NPort.dst),
              (NPort.src, NPort.node 0), (NPort.node 0, NPort.node 1),
              (NPort.node 1, NPort.node 2), (NPort.node 2, NPort.node 4),
              (NPort.node 4, NPort.dst)] }

/-- `applyAudioEffect`: a direct source→destination connection for `None`
(also the switch's default fallback), otherwise the per-effect constructor
applied with `mix = effect.mix ?? 0.5` and `params = effect.params ?? {}`. -/
def applyAudioEffect (effect : AudioEffectOptions) : Graph :=
  if effect.type = AudioEffectType.none then
    { nodes := [], edges := [(NPort.src, NPort.dst)] }
  else
    let mix := effect.mix.getD (1/2)
    let p := effect.params.getD (fun _ => Option.none)
    match effect.type with
    | AudioEffectType.reverb => createReverbEffect mix p
    | AudioEffectType.echo => createEchoEffect mix p
    | AudioEffectType.distortion => createDistortionEffect mix p
    | AudioEffectType.lowpass => createLowPassFilter mix p
    | AudioEffectType.highpass => createHighPassFilter mix p
    | AudioEffectType.telephone => createTelephoneEffect mix p
    | AudioEffectType.none => { nodes := [], edges := [(NPort.src, NPort.dst)] }

/-- The dry path: some created gain node carries `1 - mix`, is fed by the
source and feeds the destination. -/
def dryPathOk (g : Graph) (mix : ℚ) : Prop :=
  ∃ i, g.nodes[i]? = some (ANode.gainN (1 - mix))
    ∧ (NPort.src, NPort.node i) ∈ g.edges
    ∧ (NPort.node i, NPort.dst) ∈ g.edges

/-- Transform (non-gain) nodes: the signal-shaping stages of an effect. -/
def isTransformNode : ANode → Prop
  | ANode.gainN _ => False
  | _ => True

/-- `pathOk g a is b`: the consecutive `connect` edges from `a` through the
listed created nodes to `b` are all present in the graph. -/
def pathOk (g : Graph) : NPort → List Nat → NPort → Prop
  | a, [], b => (a, b) ∈ g.edges
  | a, i :: rest, b => (a, NPort.node i) ∈ g.edges ∧ pathOk g (NPort.node i) rest b

/-- The wet path: the source feeds a non-empty chain of transform nodes
ending in a gain node that carries `mix` and feeds the destination. -/
def wetPathOk (g : Graph) (mix : ℚ) : Prop :=
  ∃ (chain : List Nat) (w : Nat), chain ≠ []
    ∧ (∀ j ∈ chain, ∃ n, g.nodes[j]? = some n ∧ isTransformNode n)
    ∧ g.nodes[w]? = some (ANode.gainN mix)
    ∧ pathOk g NPort.src chain (NPort.node w)
    ∧ (NPort.node w, NPort.dst) ∈ g.edges

/-- Dry and wet paths of the reverb constructor. -/
theorem reverb_paths (mix : ℚ) (p : Params) :
    dryPathOk (createReverbEffect mix p) mix ∧ wetPathOk (createReverbEffect mix p) mix := by
  constructor
  · exact ⟨1, rfl, by simp [createReverbEffect], by simp [createReverbEffect]⟩
  · refine ⟨[0], 2, by simp, ?_, rfl, ⟨?_, ?_⟩, ?_⟩
    · intro j hj
      simp at hj
      subst hj
      exact ⟨_, rfl, trivial⟩
    · simp [createReverbEffect]
    · simp [createReverbEffect, pathOk]
    · simp [createReverbEffect]

/-- Dry and wet paths of the echo constructor. -/
theorem echo_paths (mix : ℚ) (p : Params) :
    dryPathOk (createEchoEffect mix p) mix ∧ wetPathOk (createEchoEffect mix p) mix := by
  constructor
  · exact ⟨2, rfl, by simp [createEchoEffect], by simp [createEchoEffect]⟩
  · refine ⟨[0], 3, by simp, ?_, rfl, ⟨?_, ?_⟩, ?_⟩
    · intro j hj
      simp at hj
      subst hj
      exact ⟨_, rfl, trivial⟩
    · simp [createEchoEffect]
    · simp [createEchoEffect, pathOk]
    · simp [createEchoEffect]

/-- Dry and wet paths of the distortion constructor. -/
theorem distortion_paths (mix : ℚ) (p : Params) :
    dryPathOk (createDistortionEffect mix p) mix
    ∧ wetPathOk (createDistortionEffect mix p) mix := by
  constructor
  · exact ⟨1, rfl, by simp [createDistortionEffect], by simp [createDistortionEffect]⟩
  · refine ⟨[0], 2, by simp, ?_, rfl, ⟨?_, ?_⟩, ?_⟩
    · intro j hj
      simp at hj
      subst hj
      exact ⟨_, rfl, trivial⟩
    · simp [createDistortionEffect]
    · simp [createDistortionEffect, pathOk]
    · simp [createDistortionEffect]

/-- Dry and wet paths of the lowpass constructor. -/
theorem lowpass_paths (mix : ℚ) (p : Params) :
    dryPathOk (createLowPassFilter mix p) mix
    ∧ wetPathOk (createLowPassFilter mix p) mix := by
  constructor
  · exact ⟨1, rfl, by simp [createLowPassFilter], by simp [createLowPassFilter]⟩
  · refine ⟨[0], 2, by simp, ?_, rfl, ⟨?_, ?_⟩, ?_⟩
    · intro j hj
      simp at hj
      subst hj
      exact ⟨_, rfl, trivial⟩
    · simp [createLowPassFilter]
    · simp [createLowPassFilter, pathOk]
    · simp [createLowPassFilter]

/-- Dry and wet paths of the highpass constructor. -/
theorem highpass_paths (mix : ℚ) (p : Params) :
    dryPathOk (createHighPassFilter mix p) mix
    ∧ wetPathOk (createHighPassFilter mix p) mix := by
  constructor
  · exact ⟨1, rfl, by simp [createHighPassFilter], by simp [createHighPassFilter]⟩
  · refine ⟨[0], 2, by simp, ?_, rfl, ⟨?_, ?_⟩, ?_⟩
    · intro j hj
      simp at hj
      subst hj
      exact ⟨_, rfl, trivial⟩
    · simp [createHighPassFilter]
    · simp [createHighPassFilter, pathOk]
    · simp [createHighPassFilter]

/-- Dry and wet paths of the telephone constructor. -/
theorem telephone_paths (mix : ℚ) (p : Params) :
    dryPathOk (createTelephoneEffect mix p) mix
    ∧ wetPathOk (createTelephoneEffect mix p) mix := by
  constructor
  · exact ⟨3, rfl, by simp [createTelephoneEffect], by simp [createTelephoneEffect]⟩
  · refine ⟨[0, 1, 2], 4, by simp, ?_, rfl, ⟨?_, ?_, ?_, ?_⟩, ?_⟩
    · intro j hj
      simp at hj
      rcases hj with rfl | rfl | rfl
      · exact ⟨_, rfl, trivial⟩
      · exact ⟨_, rfl, trivial⟩
      · exact ⟨_, rfl, trivial⟩
    · simp [createTelephoneEffect]
    · simp [createTelephoneEffect]
    · simp [createTelephoneEffect]
    · simp [createTelephoneEffect, pathOk]
    · simp [createTelephoneEffect]

/-- C7: every effect spec whose type is not `None` produces a routing graph
with a dry path (source → gain `1 - mix` → destination) and a wet path
(source → the effect's transform chain → gain `mix` → destination), both
summed at the destination; and with parameters absent the documented
defaults are configured: echo delay 0.3 s and feedback 0.4, distortion
amount 20, lowpass cutoff 800 Hz, highpass cutoff 1500 Hz, Q 1, reverb
decay 2 s, telephone highpass 700 Hz and lowpass 2500 Hz. -/
theorem applyAudioEffect_dry_wet_defaults :
    (∀ o : AudioEffectOptions, o.type ≠ AudioEffectType.none →
      dryPathOk (applyAudioEffect o) (o.mix.getD (1/2))
      ∧ wetPathOk (applyAudioEffect o) (o.mix.getD (1/2)))
    ∧ (∀ mix : ℚ,
        (applyAudioEffect ⟨AudioEffectType.reverb, some mix, Option.none⟩).nodes
          = [ANode.convolverN 2, ANode.gainN (1 - mix), ANode.gainN mix]
        ∧ (applyAudioEffect ⟨AudioEffectType.echo, some mix, Option.none⟩).nodes
          = [ANode.delayN (3/10), ANode.gainN (2/5),
             ANode.gainN (1 - mix), ANode.gainN mix]
        ∧ (applyAudioEffect ⟨AudioEffectType.distortion, some mix, Option.none⟩).nodes
          = [ANode.waveshaperN (CurveKind.distortionAmt 20) true,
             ANode.gainN (1 - mix), ANode.gainN mix]
        ∧ (applyAudioEffect ⟨AudioEffectType.lowpass, some mix, Option.none⟩).nodes
          = [ANode.biquadN "lowpass" 800 (some 1), ANode.gainN (1 - mix), ANode.gainN mix]
        ∧ (applyAudioEffect ⟨AudioEffectType.highpass, some mix, Option.none⟩).nodes
          = [ANode.biquadN "highpass" 1500 (some 1), ANode.gainN (1 - mix), ANode.gainN mix]
        ∧ (applyAudioEffect ⟨AudioEffectType.telephone, some mix, Option.none⟩).nodes
          = [ANode.biquadN "highpass" 700 Option.none,
             ANode.biquadN "lowpass" 2500 Option.none,
             ANode.waveshaperN CurveKind.telephoneClip false,
             ANode.gainN (1 - mix), ANode.gainN mix]) := by
  constructor
  · intro o ho
    rcases o with ⟨t, m, pOpt⟩
    cases t with
    | none => exact absurd rfl ho
    | reverb => exact reverb_paths (m.getD (1/2)) (pOpt.getD (fun _ => Option.none))
    | echo => exact echo_paths (m.getD (1/2)) (pOpt.getD (fun _ => Option.none))
    | distortion => exact distortion_paths (m.getD (1/2)) (pOpt.getD (fun _ => Option.none))
    | lowpass => exact lowpass_paths (m.getD (1/2)) (pOpt.getD (fun _ => Option.none))
    | highpass => exact highpass_paths (m.getD (1/2)) (pOpt.getD (fun _ => Option.none))
    | telephone => exact telephone_paths (m.getD (1/2)) (pOpt.getD (fun _ => Option.none))
  · intro mix
    exact ⟨rfl, rfl, rfl, rfl, rfl, rfl⟩

/-- Witness for C7 at a concrete echo spec with mix 1/3. -/
theorem applyAudioEffect_dry_wet_defaults_witness :
    dryPathOk (applyAudioEffect ⟨AudioEffectType.echo, some (1/3), Option.none⟩)
        (((some (1/3) : Option ℚ)).getD (1/2))
    ∧ wetPathOk (applyAudioEffect ⟨AudioEffectType.echo, some (1/3), Option.none⟩)
        (((some (1/3) : Option ℚ)).getD (1/2)) :=
  applyAudioEffect_dry_wet_defaults.1
    ⟨AudioEffectType.echo, some (1/3), Option.none⟩ (by decide)

/-- C8: evaluation at the failing input — a fatal recorder error (and
likewise an unmount) during an active recording, i.e. from `initSession`
where both the duration interval and the volume timeout are scheduled.  The
`onerror` handler leaves both tasks scheduled, and the unmount cleanup
returns early because the recorder is not inactive, also leaving both
scheduled; by contrast `stopRecording` and `cancelRecording` do cancel
both.  This contradicts the claim (and the spec's requirement) that both
background tasks are cancelled on *every* terminal transition and on
teardown. -/
theorem onerror_and_unmount_leave_tasks_scheduled :
    ((onerror (initSession "audio/webm")).timer = true
      ∧ (onerror (initSession "audio/webm")).volumeTimer = true)
    ∧ ((unmountCleanup (initSession "audio/webm")).timer = true
      ∧ (unmountCleanup (initSession "audio/webm")).volumeTimer = true)
    ∧ ((stopRecording (initSession "audio/webm")).timer = false
      ∧ (stopRecording (initSession "audio/webm")).volumeTimer = false)
    ∧ ((cancelRecording (initSession "audio/webm")).timer = false
      ∧ (cancelRecording (initSession "audio/webm")).volumeTimer = false) :=
  ⟨⟨rfl, rfl⟩, ⟨rfl, rfl⟩, ⟨rfl, rfl⟩, ⟨rfl, rfl⟩⟩

/-- `updateVolume`'s volume reduction: the arithmetic mean of the analyser's
byte-frequency bins (`sum / dataArray.length`) divided by 255. -/
def computeVolume (data : List Nat) : ℚ :=
  ((data.sum : ℚ) / (data.length : ℚ)) / 255

/-- The observable outcome of one `updateVolume` firing: the published
volume and the delay of the successor sample it schedules (exactly one, via
`setTimeout`). -/
structure VolumeSample where
  published : ℚ
  nextDelay : Option ℚ
deriving DecidableEq, Repr

/-- One firing of `updateVolume` with the analyser's current bin contents:
publish the normalized mean and self-schedule the single next sample after
`volumeMeterRefreshRate` milliseconds. -/
def updateVolume (volumeMeterRefreshRate : ℚ) (data : List Nat) : VolumeSample :=
  { published := computeVolume data
    nextDelay := some volumeMeterRefreshRate }

/-- The hook's default `volumeMeterRefreshRate` (ms). -/
def defaultVolumeMeterRefreshRate : ℚ := 100

/-- C9: each published volume equals the arithmetic mean of the analyser's
byte-frequency bins divided by 255 (the maximum representable magnitude) and
lies in `[0, 1]`; each sample schedules exactly one successor after
`volumeMeterRefreshRate` milliseconds, whose default is 100. -/
theorem updateVolume_normalized_self_scheduling (rate : ℚ) (data : List Nat)
    (hne : data ≠ []) (hb : ∀ b ∈ data, b ≤ 255) :
    (updateVolume rate data).published = ((data.sum : ℚ) / (data.length : ℚ)) / 255
    ∧ 0 ≤ (updateVolume rate data).published
    ∧ (updateVolume rate data).published ≤ 1
    ∧ (updateVolume rate data).nextDelay = some rate
    ∧ defaultVolumeMeterRefreshRate = 100 := by
  have hlen : (0 : ℚ) < (data.length : ℚ) := by
    have := List.length_pos.mpr hne
    exact_mod_cast this
  refine ⟨rfl, ?_, ?_, rfl, rfl⟩
  · exact div_nonneg (div_nonneg (Nat.cast_nonneg _) (Nat.cast_nonneg _)) (by norm_num)
  · have hsum : (data.sum : ℚ) ≤ 255 * (data.length : ℚ) := by
      have h2 : data.sum ≤ 255 * data.length := by
        have h1 : data.sum ≤ data.length • 255 := List.sum_le_card_nsmul data 255 hb
        simpa [smul_eq_mul, Nat.mul_comm] using h1
      exact_mod_cast h2
    show ((data.sum : ℚ) / (data.length : ℚ)) / 255 ≤ 1
    rw [div_le_one (by norm_num : (0 : ℚ) < 255), div_le_iff₀ hlen]
    linarith

/-- Witness for C9 at a two-bin buffer. -/
theorem updateVolume_normalized_self_scheduling_witness :
    (updateVolume 100 [255, 0]).published
        = ((([255, 0] : List Nat).sum : ℚ) / ((([255, 0] : List Nat).length : ℚ))) / 255
    ∧ 0 ≤ (updateVolume 100 [255, 0]).published
    ∧ (updateVolume 100 [255, 0]).published ≤ 1
    ∧ (updateVolume 100 [255, 0]).nextDelay = some 100
    ∧ defaultVolumeMeterRefreshRate = 100 :=
  updateVolume_normalized_self_scheduling 100 [255, 0] (by decide)
    (by decide)

end AudioRecorderHook
